import Mathlib

/-!
# Verification of the yearly-sentiment pipeline

Shallow embedding of `src/analysis/yearly_sentiment/yearly_sentiment.py`:
dataset loading (`load_dataset`), per-record sentiment normalization
(the body of `compute_sentiment`), year aggregation (`aggregate_by_year`)
and the orchestration in `main`.  Confidence scores are modelled as
rationals; date strings are parsed by a model of
`datetime.strptime(s, "%Y-%m-%d")`.
-/

/-- A raw dataset entry: the value of one key of the JSON object.
`transcript` is `none` when the field is absent (`entry.get('transcript', '')`
then yields the empty string). -/
structure Entry where
  transcript : Option String
deriving DecidableEq, Repr

/-- A calendar date as produced by parsing a `YYYY-MM-DD` key. -/
structure CalDate where
  year : Nat
  month : Nat
  day : Nat
deriving DecidableEq, Repr

/-- Gregorian leap-year test, as in `datetime`. -/
def isLeapYear (y : Nat) : Bool :=
  (y % 4 == 0 && y % 100 != 0) || (y % 400 == 0)

/-- Number of days of month `m` of year `y`. -/
def daysInMonth (y m : Nat) : Nat :=
  if m = 2 then (if isLeapYear y then 29 else 28)
  else if m = 4 ∨ m = 6 ∨ m = 9 ∨ m = 11 then 30
  else 31

/-- The ASCII whitespace characters removed by Python's `str.strip()`. -/
def pyIsSpace (c : Char) : Bool :=
  (c == ' ') || (c == '\t') || (c == '\n') || (c == '\x0d')
    || (c == '\x0b') || (c == '\x0c')

/-- Model of Python's `str.strip()`: drop leading and trailing whitespace. -/
def pyStrip (s : String) : String :=
  ⟨((s.data.dropWhile pyIsSpace).reverse.dropWhile pyIsSpace).reverse⟩

/-- Split a character list at every `'-'` (the literal separators of the
`"%Y-%m-%d"` format). -/
def splitDashAux : List Char → List Char → List (List Char)
  | [], acc => [acc.reverse]
  | c :: rest, acc =>
    if c = '-' then acc.reverse :: splitDashAux rest []
    else splitDashAux rest (c :: acc)

/-- Numeric value of a digit list (left fold, base 10). -/
def digitsToNat (cs : List Char) : Nat :=
  cs.foldl (fun n c => n * 10 + (c.toNat - 48)) 0

/-- Model of `datetime.strptime(s, "%Y-%m-%d")`: `%Y` is exactly four
digits, `%m` and `%d` are one or two digits, the whole string must be
consumed, and the `datetime` constructor bounds the fields
(`1 ≤ year`, `1 ≤ month ≤ 12`, `1 ≤ day ≤ daysInMonth`).
Returns `none` where Python raises `ValueError`. -/
def parseDateYMD (s : String) : Option CalDate :=
  match splitDashAux s.data [] with
  | [ys, ms, ds] =>
    if ys.length = 4 ∧ ys.all Char.isDigit = true
        ∧ 1 ≤ ms.length ∧ ms.length ≤ 2 ∧ ms.all Char.isDigit = true
        ∧ 1 ≤ ds.length ∧ ds.length ≤ 2 ∧ ds.all Char.isDigit = true then
      let y := digitsToNat ys
      let m := digitsToNat ms
      let d := digitsToNat ds
      if 1 ≤ y ∧ 1 ≤ m ∧ m ≤ 12 ∧ 1 ≤ d ∧ d ≤ daysInMonth y m then
        some ⟨y, m, d⟩
      else none
    else none
  | _ => none

/-- A validated record of the working set: the dict appended to `records`
in `load_dataset` (`'date'`, `'year'`, `'text'`). -/
structure DocumentRecord where
  date : String
  year : Nat
  text : String
deriving DecidableEq, Repr

/-- Outcome of processing one `(date_str, entry)` pair of the loop body of
`load_dataset`: a retained record, a silent skip for blank text, or a skip
with a printed warning for an unparsable date key (the warning is modelled
by the offending key). -/
inductive EntryOutcome where
  | record (r : DocumentRecord)
  | skippedText
  | skippedDate (diag : String)
deriving DecidableEq, Repr

/-- The body of the `for date_str, entry in data.items()` loop of
`load_dataset`: blank (empty or whitespace-only, possibly absent)
transcripts are skipped first; then the key is parsed as a date, skipping
with a warning on failure; otherwise a record with the trimmed text and
the derived year is produced. -/
def processEntry (kv : String × Entry) : EntryOutcome :=
  let transcript := kv.2.transcript.getD ""
  if pyStrip transcript = "" then
    .skippedText
  else
    match parseDateYMD kv.1 with
    | none => .skippedDate kv.1
    | some d => .record ⟨kv.1, d.year, pyStrip transcript⟩

/-- Result of a successful `load_dataset`: the retained records (in input
order), the skip counter, and the date-parse warnings (in input order). -/
structure LoadResult where
  records : List DocumentRecord
  skipped : Nat
  diags : List String
deriving DecidableEq, Repr

/-- The loop of `load_dataset` over the (insertion-ordered) items of the
JSON object. -/
def load_loop : List (String × Entry) → LoadResult
  | [] => ⟨[], 0, []⟩
  | kv :: rest =>
    let res := load_loop rest
    match processEntry kv with
    | .record r => ⟨r :: res.records, res.skipped, res.diags⟩
    | .skippedText => ⟨res.records, res.skipped + 1, res.diags⟩
    | .skippedDate s => ⟨res.records, res.skipped + 1, s :: res.diags⟩

/-- State of the dataset file: absent (`FileNotFoundError`), present but
not valid JSON (`json.JSONDecodeError`), or readable with the given items. -/
inductive DataSource where
  | missing
  | unreadable
  | ok (data : List (String × Entry))

/-- The fatal errors `load_dataset` can raise before the loop runs. -/
inductive LoadError where
  | fileNotFound
  | jsonDecode
deriving DecidableEq, Repr

/-- `load_dataset`: fails fatally when the file is absent or unreadable,
otherwise runs the per-entry loop. -/
def load_dataset : DataSource → Except LoadError LoadResult
  | .missing => .error .fileNotFound
  | .unreadable => .error .jsonDecode
  | .ok data => .ok (load_loop data)

/-- One classifier result, `{'label': ..., 'score': ...}`. -/
structure ClassifierOutput where
  label : String
  score : ℚ
deriving DecidableEq, Repr

/-- The label-to-scalar mapping inside `compute_sentiment`:
`score` when the label is `"POSITIVE"`, `-score` otherwise. -/
def compute_sentiment_value (label : String) (score : ℚ) : ℚ :=
  if label = "POSITIVE" then score else -score

/-- A `DocumentRecord` augmented with the three sentiment columns added by
`compute_sentiment`. -/
structure ScoredRecord where
  date : String
  year : Nat
  text : String
  sentiment_label : String
  sentiment_score : ℚ
  sentiment_value : ℚ
deriving DecidableEq, Repr

/-- The per-row normalization of `compute_sentiment`: attach the
classifier output and its signed value to a record. -/
def normalizeRecord (r : DocumentRecord) (c : ClassifierOutput) : ScoredRecord :=
  { date := r.date, year := r.year, text := r.text,
    sentiment_label := c.label, sentiment_score := c.score,
    sentiment_value := compute_sentiment_value c.label c.score }

/-- One output row of `aggregate_by_year`. -/
structure YearAggregate where
  year : Nat
  mean_sentiment : ℚ
  comic_count : Nat
deriving DecidableEq, Repr

/-- The records of year `y` (one group of `df.groupby('year')`). -/
def recordsOfYear (l : List ScoredRecord) (y : Nat) : List ScoredRecord :=
  l.filter (fun r => r.year == y)

/-- The distinct years of the input, ascending (the group keys of
`df.groupby('year')`, which pandas sorts; `sort_values('year')` then keeps
that order). -/
def yearsOf (l : List ScoredRecord) : List Nat :=
  List.insertionSort (· ≤ ·) (l.map (fun r => r.year)).dedup

/-- `aggregate_by_year`: one row per distinct year with the mean of
`sentiment_value` and the record count, ascending by year. -/
def aggregate_by_year (l : List ScoredRecord) : List YearAggregate :=
  (yearsOf l).map (fun y =>
    { year := y,
      mean_sentiment := ((recordsOfYear l y).map (fun r => r.sentiment_value)).sum
        / ((recordsOfYear l y).length : ℚ),
      comic_count := (recordsOfYear l y).length })

/-- A file written by `main`: the CSV of aggregates or the PNG chart. -/
inductive WriteEvent where
  | csv (stats : List YearAggregate)
  | png (stats : List YearAggregate)
deriving DecidableEq

/-- The orchestration of `main`: load, score every record through the
classifier, aggregate, then write the CSV and the chart.  The second
component lists the files written; a load failure propagates out of the
`try` block before anything is written. -/
def run_main (src : DataSource) (classify : String → ClassifierOutput) :
    Except LoadError (List YearAggregate) × List WriteEvent :=
  match load_dataset src with
  | .error e => (.error e, [])
  | .ok res =>
    let scored := res.records.map (fun r => normalizeRecord r (classify r.text))
    let stats := aggregate_by_year scored
    (.ok stats, [.csv stats, .png stats])

/-- The `DocumentRecord` invariant: non-empty trimmed text and a date key
that parses, with `year` derived from it. -/
def recordInvariant (r : DocumentRecord) : Prop :=
  r.text ≠ "" ∧ (∃ t : String, r.text = pyStrip t) ∧
    ∃ d : CalDate, parseDateYMD r.date = some d ∧ r.year = d.year

/-- C1: for every record and classifier output, `signedSentiment` equals
`confidence` for the `POSITIVE` label and `-confidence` for `NEGATIVE`;
with a nonnegative confidence the sign matches the label and the magnitude
equals the confidence. -/
theorem c1_signed_sentiment (r : DocumentRecord) (c : ClassifierOutput)
    (hs : 0 ≤ c.score) :
    (c.label = "POSITIVE" → (normalizeRecord r c).sentiment_value = c.score
        ∧ 0 ≤ (normalizeRecord r c).sentiment_value)
      ∧ (c.label = "NEGATIVE" → (normalizeRecord r c).sentiment_value = -c.score
        ∧ (normalizeRecord r c).sentiment_value ≤ 0)
      ∧ |(normalizeRecord r c).sentiment_value| = c.score := by
  refine ⟨fun h => ?_, fun h => ?_, ?_⟩
  · simp [normalizeRecord, compute_sentiment_value, h, hs]
  · have hne : c.label ≠ "POSITIVE" := by rw [h]; decide
    simp [normalizeRecord, compute_sentiment_value, hne, neg_nonpos.mpr hs]
  · by_cases h : c.label = "POSITIVE" <;>
      simp [normalizeRecord, compute_sentiment_value, h, abs_neg, abs_of_nonneg hs]

theorem c1_signed_sentiment_witness :
    (0 : ℚ) ≤ (9 : ℚ) / 10
      ∧ (normalizeRecord ⟨"1989-04-16", 1989, "Good morning"⟩
          ⟨"NEGATIVE", 9/10⟩).sentiment_value = -(9/10) :=
  ⟨by norm_num,
    ((c1_signed_sentiment ⟨"1989-04-16", 1989, "Good morning"⟩
      ⟨"NEGATIVE", 9/10⟩ (by norm_num)).2.1 rfl).1⟩

/-- C5: aggregating the empty sequence of scored records yields the empty
sequence of aggregates (and no error arises: the function is total). -/
theorem c5_empty_aggregate : aggregate_by_year [] = [] := rfl

/-- C9: the normalization is a deterministic pure mapping: equal inputs
yield equal `ScoredRecord`s. -/
theorem c9_normalize_deterministic
    (r₁ r₂ : DocumentRecord) (c₁ c₂ : ClassifierOutput)
    (hr : r₁ = r₂) (hc : c₁ = c₂) :
    normalizeRecord r₁ c₁ = normalizeRecord r₂ c₂ := by
  rw [hr, hc]

theorem c9_normalize_deterministic_witness :
    normalizeRecord ⟨"1989-04-16", 1989, "Good morning"⟩ ⟨"POSITIVE", 9/10⟩
      = normalizeRecord ⟨"1989-04-16", 1989, "Good morning"⟩ ⟨"POSITIVE", 9/10⟩ :=
  c9_normalize_deterministic _ _ _ _ rfl rfl

lemma load_loop_length (data : List (String × Entry)) :
    (load_loop data).records.length + (load_loop data).skipped = data.length := by
  induction data with
  | nil => rfl
  | cons kv rest ih =>
    cases h : processEntry kv <;> simp [load_loop, h] <;> omega

lemma processEntry_record_invariant {kv : String × Entry} {r : DocumentRecord}
    (h : processEntry kv = .record r) : recordInvariant r := by
  unfold processEntry at h
  by_cases hb : pyStrip (kv.2.transcript.getD "") = ""
  · simp [hb] at h
  · simp only [hb, if_false] at h
    cases hp : parseDateYMD kv.1 with
    | none => rw [hp] at h; exact absurd h (by simp)
    | some d =>
      rw [hp] at h
      simp only [EntryOutcome.record.injEq] at h
      refine ⟨?_, ⟨kv.2.transcript.getD "", ?_⟩, d, ?_, ?_⟩ <;>
        simp [← h, hp, hb]

lemma load_loop_mem {data : List (String × Entry)} {r : DocumentRecord}
    (hr : r ∈ (load_loop data).records) :
    ∃ kv ∈ data, processEntry kv = .record r := by
  induction data with
  | nil => simp [load_loop] at hr
  | cons kv rest ih =>
    cases h : processEntry kv <;> simp [load_loop, h] at hr
    case record r₀ =>
      rcases hr with hr | hr
      · exact ⟨kv, by simp, by rw [h, hr]⟩
      · obtain ⟨kv₀, hm, he⟩ := ih hr
        exact ⟨kv₀, by simp [hm], he⟩
    all_goals
      obtain ⟨kv₀, hm, he⟩ := ih hr
      exact ⟨kv₀, by simp [hm], he⟩

lemma processEntry_skip {kv : String × Entry}
    (h : pyStrip (kv.2.transcript.getD "") = "" ∨ parseDateYMD kv.1 = none) :
    processEntry kv = .skippedText ∨ processEntry kv = .skippedDate kv.1 := by
  unfold processEntry
  by_cases hb : pyStrip (kv.2.transcript.getD "") = ""
  · simp [hb]
  · rcases h with h | h
    · exact absurd h hb
    · simp [hb, h]

/-- C3: `load` returns only records satisfying the `DocumentRecord`
invariants; every entry with blank text or an unparsable date key is
skipped, adding no record and incrementing the skip counter by exactly 1,
so that `returned_count + skipped_count` equals the input entry count. -/
theorem c3_load_accounting :
    (∀ data : List (String × Entry),
        (load_loop data).records.length + (load_loop data).skipped = data.length
      ∧ ∀ r ∈ (load_loop data).records, recordInvariant r)
    ∧ ∀ kv : String × Entry, ∀ rest : List (String × Entry),
        (pyStrip (kv.2.transcript.getD "") = "" ∨ parseDateYMD kv.1 = none) →
        (load_loop (kv :: rest)).records = (load_loop rest).records
          ∧ (load_loop (kv :: rest)).skipped = (load_loop rest).skipped + 1 := by
  refine ⟨fun data => ⟨load_loop_length data, fun r hr => ?_⟩, fun kv rest h => ?_⟩
  · obtain ⟨kv, _, he⟩ := load_loop_mem hr
    exact processEntry_record_invariant he
  · rcases processEntry_skip h with h₀ | h₀ <;> simp [load_loop, h₀]

theorem c3_load_accounting_witness :
    (load_loop [("not-a-date", ⟨some "hello"⟩)]).records.length
        + (load_loop [("not-a-date", ⟨some "hello"⟩)]).skipped = 1
      ∧ (load_loop [("not-a-date", ⟨some "hello"⟩)]).records = (load_loop []).records
      ∧ (load_loop [("not-a-date", ⟨some "hello"⟩)]).skipped
        = (load_loop []).skipped + 1 :=
  ⟨((c3_load_accounting.1 [("not-a-date", ⟨some "hello"⟩)]).1 : _),
    c3_load_accounting.2 ("not-a-date", ⟨some "hello"⟩) [] (Or.inr (by decide))⟩

/-- C7: every record of the working set has non-empty trimmed text and a
date key that parses, with `year` derived from it; an entry with blank
text or an unparsable key never yields a record (records are never
partially constructed).  Records are plain immutable values in this
embedding and nothing in the pipeline rewrites them. -/
theorem c7_record_invariants :
    (∀ data : List (String × Entry), ∀ r ∈ (load_loop data).records,
        r.text ≠ "" ∧ (∃ t : String, r.text = pyStrip t)
          ∧ ∃ d : CalDate, parseDateYMD r.date = some d ∧ r.year = d.year)
    ∧ ∀ kv : String × Entry,
        (pyStrip (kv.2.transcript.getD "") = "" ∨ parseDateYMD kv.1 = none) →
        ∀ r : DocumentRecord, processEntry kv ≠ .record r := by
  refine ⟨fun data r hr => ?_, fun kv h r hrec => ?_⟩
  · obtain ⟨kv, _, he⟩ := load_loop_mem hr
    exact processEntry_record_invariant he
  · rcases processEntry_skip h with h₀ | h₀ <;> rw [h₀] at hrec <;> exact
      absurd hrec (by simp)

theorem c7_record_invariants_witness :
    ((⟨"1989-04-16", 1989, "hi"⟩ : DocumentRecord).text ≠ ""
        ∧ (∃ t : String, (⟨"1989-04-16", 1989, "hi"⟩ : DocumentRecord).text = pyStrip t)
        ∧ ∃ d : CalDate, parseDateYMD "1989-04-16" = some d ∧ 1989 = d.year)
      ∧ processEntry ("not-a-date", ⟨none⟩) ≠ .record ⟨"not-a-date", 0, ""⟩ :=
  ⟨c7_record_invariants.1 [("1989-04-16", ⟨some "hi"⟩)] ⟨"1989-04-16", 1989, "hi"⟩
      (by decide),
    c7_record_invariants.2 ("not-a-date", ⟨none⟩) (Or.inl (by decide))
      ⟨"not-a-date", 0, ""⟩⟩

/-- C10: in `load_dataset` the blank-text check precedes date parsing: an
entry with blank (absent, empty or whitespace-only) transcript is skipped
as a text skip whatever its key is, the skip counter grows by exactly 1,
and no date-parse warning is emitted — even when the key is also
unparsable, the counter is not incremented twice. -/
theorem c10_text_check_precedence (kv : String × Entry)
    (rest : List (String × Entry))
    (hb : pyStrip (kv.2.transcript.getD "") = "") :
    processEntry kv = .skippedText
      ∧ (load_loop (kv :: rest)).records = (load_loop rest).records
      ∧ (load_loop (kv :: rest)).skipped = (load_loop rest).skipped + 1
      ∧ (load_loop (kv :: rest)).diags = (load_loop rest).diags := by
  have h : processEntry kv = .skippedText := by
    unfold processEntry
    simp [hb]
  exact ⟨h, by simp [load_loop, h], by simp [load_loop, h], by simp [load_loop, h]⟩

theorem c10_text_check_precedence_witness :
    processEntry ("not-a-date", ⟨some "  "⟩) = .skippedText
      ∧ (load_loop [("not-a-date", ⟨some "  "⟩)]).records = (load_loop []).records
      ∧ (load_loop [("not-a-date", ⟨some "  "⟩)]).skipped = (load_loop []).skipped + 1
      ∧ (load_loop [("not-a-date", ⟨some "  "⟩)]).diags = (load_loop []).diags :=
  c10_text_check_precedence ("not-a-date", ⟨some "  "⟩) [] (by decide)

/-- C4 as stated is false: the code validates neither the label nor the
confidence.  The out-of-contract label `"NEUTRAL"` with confidence `1/2`
is silently coerced into a `ScoredRecord` (treated as negative), and a
`"POSITIVE"` confidence of `2`, outside `[0,1]`, passes through unchanged;
no error of any kind is raised. -/
theorem c4_counterexample :
    normalizeRecord ⟨"1989-04-16", 1989, "Good morning"⟩ ⟨"NEUTRAL", 1/2⟩
      = ⟨"1989-04-16", 1989, "Good morning", "NEUTRAL", 1/2, -(1/2)⟩
      ∧ ("NEUTRAL" : String) ≠ "POSITIVE" ∧ ("NEUTRAL" : String) ≠ "NEGATIVE"
      ∧ (normalizeRecord ⟨"1989-04-16", 1989, "Good morning"⟩
          ⟨"POSITIVE", 2⟩).sentiment_value = 2 := by
  refine ⟨?_, by decide, by decide, ?_⟩ <;>
    simp [normalizeRecord, compute_sentiment_value]

/-- C4 amended: the normalization never fails; any label other than
`"POSITIVE"` — `"NEGATIVE"` or out-of-contract alike — is treated as
negative, yielding `signedSentiment = -confidence`, and the confidence is
not range-checked but carried through unchanged. -/
theorem c4_amended_no_validation (r : DocumentRecord) (c : ClassifierOutput)
    (h : c.label ≠ "POSITIVE") :
    (normalizeRecord r c).sentiment_value = -c.score
      ∧ (normalizeRecord r c).sentiment_score = c.score
      ∧ (normalizeRecord r c).sentiment_label = c.label := by
  simp [normalizeRecord, compute_sentiment_value, h]

theorem c4_amended_no_validation_witness :
    (normalizeRecord ⟨"1989-04-16", 1989, "Good morning"⟩
        ⟨"NEUTRAL", 1/2⟩).sentiment_value = -(1/2)
      ∧ (normalizeRecord ⟨"1989-04-16", 1989, "Good morning"⟩
        ⟨"NEUTRAL", 1/2⟩).sentiment_score = 1/2
      ∧ (normalizeRecord ⟨"1989-04-16", 1989, "Good morning"⟩
        ⟨"NEUTRAL", 1/2⟩).sentiment_label = "NEUTRAL" :=
  c4_amended_no_validation ⟨"1989-04-16", 1989, "Good morning"⟩
    ⟨"NEUTRAL", 1/2⟩ (by decide)

/-- C8: when the dataset file is absent or unreadable, the pipeline fails
with the fatal load error and writes nothing: no CSV, no chart, no partial
result. -/
theorem c8_fatal_source_no_output (src : DataSource)
    (classify : String → ClassifierOutput)
    (h : src = .missing ∨ src = .unreadable) :
    (∃ e : LoadError, (run_main src classify).1 = .error e)
      ∧ (run_main src classify).2 = [] := by
  rcases h with h | h <;> subst h <;>
    exact ⟨⟨_, rfl⟩, rfl⟩

theorem c8_fatal_source_no_output_witness :
    (∃ e : LoadError,
        (run_main .missing (fun _ => ⟨"POSITIVE", 1⟩)).1 = .error e)
      ∧ (run_main .missing (fun _ => ⟨"POSITIVE", 1⟩)).2 = [] :=
  c8_fatal_source_no_output .missing (fun _ => ⟨"POSITIVE", 1⟩) (Or.inl rfl)

lemma yearsOf_sorted (l : List ScoredRecord) : (yearsOf l).Sorted (· ≤ ·) :=
  List.sorted_insertionSort _ _

lemma yearsOf_nodup (l : List ScoredRecord) : (yearsOf l).Nodup :=
  (List.perm_insertionSort _ _).nodup_iff.mpr (List.nodup_dedup _)

lemma mem_yearsOf {l : List ScoredRecord} {y : Nat} :
    y ∈ yearsOf l ↔ y ∈ l.map (fun r => r.year) := by
  unfold yearsOf
  rw [(List.perm_insertionSort _ _).mem_iff, List.mem_dedup]

lemma yearsOf_perm {l l' : List ScoredRecord} (h : l.Perm l') :
    yearsOf l = yearsOf l' := by
  refine List.eq_of_perm_of_sorted ?_ (yearsOf_sorted l) (yearsOf_sorted l')
  exact ((List.perm_insertionSort _ _).trans ((h.map _).dedup)).trans
    (List.perm_insertionSort _ _).symm

lemma aggregate_map_year (l : List ScoredRecord) :
    (aggregate_by_year l).map (fun a => a.year) = yearsOf l := by
  simp [aggregate_by_year, List.map_map, Function.comp_def]

/-- C2: `aggregate` emits exactly one aggregate per distinct year of the
input (the output years are exactly the input years, strictly ascending,
hence duplicate-free), each with `comic_count` equal to the number of that
year's records (at least 1) and `mean_sentiment` the arithmetic mean of
that year's sentiment values. -/
theorem c2_aggregate_correct (l : List ScoredRecord) :
    ((aggregate_by_year l).map (fun a => a.year)).Sorted (· < ·)
      ∧ (∀ y : Nat, y ∈ (aggregate_by_year l).map (fun a => a.year)
          ↔ y ∈ l.map (fun r => r.year))
      ∧ ∀ a ∈ aggregate_by_year l,
          a.comic_count = (l.filter (fun r => r.year == a.year)).length
          ∧ 1 ≤ a.comic_count
          ∧ a.mean_sentiment
            = ((l.filter (fun r => r.year == a.year)).map
                (fun r => r.sentiment_value)).sum / (a.comic_count : ℚ)
          ∧ a.mean_sentiment * (a.comic_count : ℚ)
            = ((l.filter (fun r => r.year == a.year)).map
                (fun r => r.sentiment_value)).sum := by
  refine ⟨?_, fun y => ?_, fun a ha => ?_⟩
  · rw [aggregate_map_year]
    exact (yearsOf_sorted l).lt_of_le (yearsOf_nodup l)
  · rw [aggregate_map_year]
    exact mem_yearsOf
  · obtain ⟨y, hy, rfl⟩ := List.mem_map.mp ha
    have hmem : y ∈ l.map (fun r => r.year) := mem_yearsOf.mp hy
    obtain ⟨r, hr, hry⟩ := List.mem_map.mp hmem
    have hrf : r ∈ recordsOfYear l y :=
      List.mem_filter.mpr ⟨hr, by simp [hry]⟩
    have hpos : 0 < (recordsOfYear l y).length :=
      List.length_pos_of_mem hrf
    have hne : ((recordsOfYear l y).length : ℚ) ≠ 0 := by
      exact_mod_cast Nat.pos_iff_ne_zero.mp hpos
    refine ⟨rfl, hpos, rfl, ?_⟩
    exact div_mul_cancel₀ _ hne

theorem c2_aggregate_correct_witness :
    (⟨1989, (9 : ℚ)/10, 1⟩ : YearAggregate)
        ∈ aggregate_by_year
          [⟨"1989-04-16", 1989, "Good morning", "POSITIVE", 9/10, 9/10⟩]
      ∧ ((⟨1989, (9 : ℚ)/10, 1⟩ : YearAggregate)).comic_count
        = ([⟨"1989-04-16", 1989, "Good morning", "POSITIVE", 9/10, 9/10⟩].filter
            (fun r : ScoredRecord => r.year == 1989)).length := by
  have hmem : (⟨1989, (9 : ℚ)/10, 1⟩ : YearAggregate)
      ∈ aggregate_by_year
        [⟨"1989-04-16", 1989, "Good morning", "POSITIVE", 9/10, 9/10⟩] := by
    norm_num [aggregate_by_year, yearsOf, recordsOfYear, List.dedup,
      List.insertionSort, List.orderedInsert, List.pwFilter]
  exact ⟨hmem,
    ((c2_aggregate_correct
        [⟨"1989-04-16", 1989, "Good morning", "POSITIVE", 9/10, 9/10⟩]).2.2
      ⟨1989, (9 : ℚ)/10, 1⟩ hmem).1⟩

/-- C6: aggregation is order-independent: permuting the input list of
scored records yields the same aggregates — the same years and, per year,
the same mean and the same count. -/
theorem c6_aggregate_perm_invariant (l l' : List ScoredRecord)
    (h : l.Perm l') : aggregate_by_year l = aggregate_by_year l' := by
  unfold aggregate_by_year
  rw [yearsOf_perm h]
  refine List.map_congr_left fun y _ => ?_
  have hp : (recordsOfYear l y).Perm (recordsOfYear l' y) := h.filter _
  have hlen : (recordsOfYear l y).length = (recordsOfYear l' y).length :=
    hp.length_eq
  have hsum : ((recordsOfYear l y).map (fun r => r.sentiment_value)).sum
      = ((recordsOfYear l' y).map (fun r => r.sentiment_value)).sum :=
    (hp.map _).sum_eq
  rw [hlen, hsum]

theorem c6_aggregate_perm_invariant_witness :
    aggregate_by_year
        [⟨"1989-04-16", 1989, "Good morning", "POSITIVE", 9/10, 9/10⟩,
          ⟨"1990-01-01", 1990, "Bad day", "NEGATIVE", 8/10, -(8/10)⟩]
      = aggregate_by_year
        [⟨"1990-01-01", 1990, "Bad day", "NEGATIVE", 8/10, -(8/10)⟩,
          ⟨"1989-04-16", 1989, "Good morning", "POSITIVE", 9/10, 9/10⟩] :=
  c6_aggregate_perm_invariant _ _
    (List.Perm.swap _ _ _)
